import Mathlib

/-!
Shallow embedding of `src/server.py`, a minimal Python 2 HTTP(S) server that
serves GET requests for static files out of the `www` directory.

Modelling conventions:
* Python 2 `str` values are byte strings; they are modelled as `List Char`
  (`PyStr`), one `Char` per byte.  Lean string literals enter via `.data`.
* The filesystem is a partial map from paths to `FileInfo` records carrying
  the results of `os.path.exists` (the map is defined there), `os.access`
  with `R_OK` / `X_OK`, and the file's byte contents (what `open(..., 'rb')`
  followed by repeated `read` yields).  Only regular files are modelled.
* `mimetypes.guess_type(filename)[0]` is an external lookup, modelled as a
  parameter `guess : PyStr → Option PyStr`.
* `time.strftime (timestamp)` is external; the current formatted time is the
  parameter `now : PyStr`.
* Functions that can raise a Python exception on some inputs return
  `Option` (`none` = the call raises), mirroring the `NameError` taken on
  the unhandled branches of `generate_headers` / `generate_error_HTML` and
  the `IndexError` / explicit `raise` of `parse_GET`.
* `serve_request` is modelled as a function from the connection's first
  line to the list of observable events it performs on the socket, the open
  file and standard output, in order.  Unanticipated runtime faults (an
  exception thrown by `load_file` / `generate_headers`, or by a `sock.send`
  while the body is being written) are injected through an explicit `Fault`
  oracle, since the Python code catches them with a bare `except`.
-/

/-- A Python 2 byte string: one `Char` per byte. -/
abbrev PyStr := List Char

/-- Splitting a byte string at every separator byte satisfying `p`,
keeping empty pieces: the skeleton shared by `str.split` and the
single-character splits used in the source. -/
def splitWhen (p : Char → Bool) : PyStr → List PyStr
  | [] => [[]]
  | c :: cs =>
    if p c then [] :: splitWhen p cs
    else
      match splitWhen p cs with
      | s :: ss => (c :: s) :: ss
      | [] => [[c]]

/-- Python `s.split(sep)` for a one-byte separator, as used by
`filename.split('?')` in `parse_GET`. -/
def splitCh (sep : Char) (s : PyStr) : List PyStr :=
  splitWhen (fun c => c == sep) s

/-- The bytes Python 2 `str.split()` (no argument) treats as whitespace. -/
def isPySpace (c : Char) : Bool :=
  c == ' ' || c == '\t' || c == '\n' || c == '\r' ||
    c == Char.ofNat 11 || c == Char.ofNat 12

/-- Python `line.split()`: split on runs of whitespace, dropping empty
pieces, as used on the request line in `parse_GET`. -/
def pytokens (line : PyStr) : List PyStr :=
  (splitWhen isPySpace line).filter (fun s => s ≠ [])

/-- The value of a hex digit byte, as accepted by the `_hextochr` table of
Python 2 `urllib` (both letter cases). -/
def hexVal (c : Char) : Option Nat :=
  if '0' ≤ c ∧ c ≤ '9' then some (c.toNat - '0'.toNat)
  else if 'a' ≤ c ∧ c ≤ 'f' then some (c.toNat - 'a'.toNat + 10)
  else if 'A' ≤ c ∧ c ≤ 'F' then some (c.toNat - 'A'.toNat + 10)
  else none

/-- Decoding of one piece that followed a `%` in `urllib.unquote`: the
first two bytes are read as hex when possible, otherwise the `%` is kept
literally. -/
def unquote_item (item : PyStr) : PyStr :=
  match item with
  | a :: b :: rest =>
    match hexVal a, hexVal b with
    | some ha, some hb => Char.ofNat (16 * ha + hb) :: rest
    | _, _ => '%' :: item
  | _ => '%' :: item

/-- Python 2 `urllib.unquote`: split at `%`, decode each following piece,
rejoin. -/
def unquote (s : PyStr) : PyStr :=
  match splitCh '%' s with
  | [] => []
  | first :: rest => first ++ (rest.map unquote_item).flatten

/-- The processing `parse_GET` applies to the raw path token: truncate at
the first `?` (`filename.split('?')[0]`), then percent-decode
(`urllib.unquote(filename)`). -/
def process_rawpath (f : PyStr) : PyStr :=
  unquote ((splitCh '?' f).headD f)

/-- `parse_GET` of `server.py`: tokenize the first line; when the first
token is `GET` and a second token exists, return the processed path;
otherwise the Python code raises (bare `raise`, or `IndexError` on a
missing token), modelled as `none`. -/
def parse_GET (line : PyStr) : Option PyStr :=
  match pytokens line with
  | m :: f :: _ => if m = "GET".data then some (process_rawpath f) else none
  | _ => none

/-- Whether the first line is a well-formed GET request: first token is
`GET` and a path token follows.  `parse_GET` succeeds exactly on these. -/
def wellFormedGET (line : PyStr) : Bool :=
  match pytokens line with
  | m :: _ :: _ => m == "GET".data
  | _ => false

/-- The apostrophe byte appearing in the error page's homepage link. -/
def apos : Char := Char.ofNat 39

/-- `generate_error_HTML` of `server.py`: fixed preamble/postamble around a
code-specific sentence; for a code other than 404/403/405/500 the local
`msg` is never bound and the final concatenation raises `NameError`,
modelled as `none`. -/
def generate_error_HTML (code : Nat) : Option PyStr :=
  let pre_html := "<html><head><title>Oops!</title></head><body><p>".data
  let post_html :=
    "Please try the <a href=".data ++ [apos] ++ "/index.html".data ++ [apos] ++
      ">homepage</a> while we try to fix this problem.</p></body></html>".data
  let msg : Option PyStr :=
    if code = 404 then some "The page you requested was not found.  ".data
    else if code = 403 then some "You do not have access to that file on the server.  ".data
    else if code = 405 then some "Please send a valid GET request.  ".data
    else if code = 500 then some "The server has made an error.  ".data
    else none
  msg.map (fun m => pre_html ++ m ++ post_html)

/-- The external MIME lookup `mimetypes.guess_type(filename)[0]`. -/
abbrev Mime := PyStr → Option PyStr

/-- `MIME_types` of `server.py`: the guessed type, or the literal
`unknown` when the lookup yields `None`. -/
def MIME_types (guess : Mime) (filename : PyStr) : PyStr :=
  (guess filename).getD "unknown".data

/-- The fixed `Server` header value of `generate_headers`. -/
def server_id : PyStr := "Python HTTP GET server/0.1".data

/-- The status line chosen by the `if/elif` chain of `generate_headers`;
for any other code the local `header_status` stays unbound and the later
concatenation raises `NameError`, modelled as `none`. -/
def status_line (code : Nat) : Option PyStr :=
  if code = 200 then some "HTTP/1.1 200 OK".data
  else if code = 403 then some "HTTP/1.1 403 Forbidden".data
  else if code = 404 then some "HTTP/1.1 404 Not Found".data
  else if code = 405 then some "HTTP/1.1 405 Method Not Allowed".data
  else if code = 500 then some "HTTP/1.1 500 Internal Server Error".data
  else none

/-- The `headers` dictionary built by `generate_headers`, as an ordered
association list: `Content-Type` and `Content-Length` only for 200, then
always `Date` and `Server`.  (CPython 2 iterates the dict in an
unspecified hash order; the model fixes insertion order.  No claim depends
on the order.)  `repr(file_size)` on an int is its decimal string. -/
def header_fields (guess : Mime) (now : PyStr) (code : Nat) (file_size : Nat)
    (filename : PyStr) : List (PyStr × PyStr) :=
  (if code = 200 then
      [("Content-Type".data, MIME_types guess filename),
       ("Content-Length".data, (toString file_size).data)]
    else []) ++
    [("Date".data, now), ("Server".data, server_id)]

/-- `generate_headers` of `server.py`: status line, newline, one
`key: value` line per header, blank line.  `none` when the status code is
not one of the five handled (the Python code raises `NameError` there). -/
def generate_headers (guess : Mime) (now : PyStr) (code : Nat) (file_size : Nat)
    (filename : PyStr) : Option PyStr :=
  (status_line code).map (fun st =>
    st ++ '\n' ::
      ((header_fields guess now code file_size filename).map
        (fun kv => kv.1 ++ ": ".data ++ kv.2 ++ ['\n'])).flatten ++ ['\n'])

/-- What the filesystem records about one regular file: the outcome of the
`os.access` checks and the byte contents behind `open(full_path, 'rb')`.
`os.path.getsize` agrees with the length of the contents. -/
structure FileInfo where
  readable : Bool
  executable : Bool
  content : PyStr
  deriving DecidableEq

/-- The filesystem: `none` exactly when `os.path.exists` is false. -/
abbrev FS := PyStr → Option FileInfo

/-- The first component of `load_file`'s result tuple: either the open
binary file object (identified with the bytes it will yield) or the
pre-built error HTML string. -/
inductive Handler where
  | file (content : PyStr)
  | html (body : PyStr)
  deriving DecidableEq

/-- The `(handler, file_size, status)` tuple returned by `load_file`. -/
structure LoadRes where
  handler : Handler
  file_size : Nat
  status : Nat
  deriving DecidableEq

/-- The path `load_file` consults: substitute the default document for the
bare `/`, then concatenate `self.directory` (`"www"`) with the request
path — plain string concatenation, no canonicalization. -/
def resolve_path (filename : PyStr) : PyStr :=
  "www".data ++ (if filename = "/".data then "/index.html".data else filename)

/-- `load_file` of `server.py`: 404 when the target does not exist, 200
with the open handle and size when it is readable and not executable,
403 otherwise.  The error branches reuse `generate_error_HTML`, whose
results for 404/403 are defined (`getD` is never the default). -/
def load_file (fs : FS) (filename : PyStr) : LoadRes :=
  match fs (resolve_path filename) with
  | none =>
    let html := (generate_error_HTML 404).getD []
    ⟨.html html, html.length, 404⟩
  | some fi =>
    if fi.readable && !fi.executable then
      ⟨.file fi.content, fi.content.length, 200⟩
    else
      let html := (generate_error_HTML 403).getD []
      ⟨.html html, html.length, 403⟩

/-- The `handler.read(1024)` loop: successive chunks of at most 1024
bytes until end of file.  Structural recursion on a fuel equal to the
byte count (the list strictly shrinks by 1024 each step). -/
def readChunksAux : Nat → PyStr → List PyStr
  | _, [] => []
  | 0, _ :: _ => []
  | fuel + 1, c :: cs => ((c :: cs).take 1024) :: readChunksAux fuel ((c :: cs).drop 1024)

/-- The chunk sequence the streaming loop of `serve_request` sends for a
file whose bytes are `l`. -/
def readChunks (l : PyStr) : List PyStr :=
  readChunksAux l.length l

/-- One observable action of `serve_request`, in program order: the four
`sock.send` call sites (the header block, one body chunk, the error HTML
body, a full pre-concatenated response of the two `except` blocks), the
`handler.close()`, the `sock.close()`, the log `print`, and the handler
thread dying on an exception that escapes (`crash`). -/
inductive Ev where
  | sendHeader (data : PyStr)
  | sendChunk (data : PyStr)
  | sendBody (data : PyStr)
  | sendResponse (data : PyStr)
  | closeFile
  | closeConn
  | log (data : PyStr)
  | crash
  deriving DecidableEq

/-- The bytes one event puts on the socket. -/
def Ev.payload : Ev → PyStr
  | .sendHeader d => d
  | .sendChunk d => d
  | .sendBody d => d
  | .sendResponse d => d
  | _ => []

/-- The byte stream the client receives: all send payloads in order. -/
def sentData (t : List Ev) : PyStr :=
  (t.map Ev.payload).flatten

/-- Whether an event transmits a header block: `sendHeader` sends exactly
the output of `generate_headers`, and `sendResponse` sends a response that
begins with one. -/
def isHeaderSend : Ev → Bool
  | .sendHeader _ => true
  | .sendResponse _ => true
  | _ => false

/-- The fault oracle for the bare `except` of `serve_request`: no fault,
an exception raised inside `load_file` / `generate_headers` (before any
byte is sent), or an exception raised by the `sock.send` writing the k-th
piece of the body (0-based; on the streaming path the k-th chunk, on the
error path the single body write, which is piece 0). -/
inductive Fault where
  | noFault
  | inResolve
  | inStream (k : Nat)
  deriving DecidableEq

/-- The 405 response assembled in the first `except` branch of
`serve_request`: `generate_headers(405,0,'') + generate_error_HTML(405)`. -/
def response405 (guess : Mime) (now : PyStr) : PyStr :=
  (generate_headers guess now 405 0 []).getD [] ++ (generate_error_HTML 405).getD []

/-- The 500 response assembled in the second `except` branch of
`serve_request`: `generate_headers(500,0,'') + generate_error_HTML(500)`. -/
def response500 (guess : Mime) (now : PyStr) : PyStr :=
  (generate_headers guess now 500 0 []).getD [] ++ (generate_error_HTML 500).getD []

/-- The per-request log line printed at the end of `serve_request`. -/
def log_request (now filename : PyStr) (status : Nat) : PyStr :=
  now ++ ": received request for ".data ++ filename ++ ".  Response: ".data ++
    (toString status).data

/-- The log line printed when `parse_GET` failed. -/
def log_non_GET (now : PyStr) : PyStr :=
  now ++ ": received non-GET request.  Response: 405".data

/-- `serve_request` of `server.py` as an event trace.

* Parse failure: the 405 response is sent in one call, the socket closed,
  the non-GET line logged.
* A fault inside `load_file` / `generate_headers` (`Fault.inResolve`): the
  `except` branch sends the 500 response and closes the socket; the final
  `print` then reads the local `status`, which the failed tuple assignment
  never bound, so it raises `NameError` and the handler thread dies
  (`crash`) — no log line is printed.
* Status 200: header sent, then the 1024-byte chunks; a send fault at
  chunk `k` (when `k` is within the chunk list) leaves the earlier chunks
  sent, then the `except` branch sends the 500 response and closes; the
  final `print` succeeds (`status` is bound to 200).  Without a fault the
  file handle and socket are closed and the request logged.
* Error status: header then the HTML body; a fault on that single body
  write (`inStream 0`) likewise falls into the 500 branch and still logs.

The header statuses reaching `generate_headers` here are 200/403/404 (see
`load_file_status_mem`), so its `getD []` never takes the default. -/
def serve_request (fs : FS) (guess : Mime) (now : PyStr) (fault : Fault)
    (line : PyStr) : List Ev :=
  match parse_GET line with
  | none =>
    [.sendResponse (response405 guess now), .closeConn, .log (log_non_GET now)]
  | some filename =>
    match fault with
    | .inResolve =>
      [.sendResponse (response500 guess now), .closeConn, .crash]
    | fault =>
      let r := load_file fs filename
      let header := (generate_headers guess now r.status r.file_size filename).getD []
      match r.handler with
      | .file content =>
        let chunks := readChunks content
        match fault with
        | .inStream k =>
          if k < chunks.length then
            Ev.sendHeader header :: (chunks.take k).map Ev.sendChunk ++
              [.sendResponse (response500 guess now), .closeConn,
               .log (log_request now filename r.status)]
          else
            Ev.sendHeader header :: chunks.map Ev.sendChunk ++
              [.closeFile, .closeConn, .log (log_request now filename r.status)]
        | _ =>
          Ev.sendHeader header :: chunks.map Ev.sendChunk ++
            [.closeFile, .closeConn, .log (log_request now filename r.status)]
      | .html body =>
        match fault with
        | .inStream 0 =>
          [.sendHeader header, .sendResponse (response500 guess now), .closeConn,
           .log (log_request now filename r.status)]
        | _ =>
          [.sendHeader header, .sendBody body, .closeConn,
           .log (log_request now filename r.status)]

/-- Whether the injected fault actually fires on this request (an
exception really occurs): `inResolve` always; a stream fault only when the
faulted send is one the code performs. -/
def exceptionOccurs (fs : FS) (filename : PyStr) (fault : Fault) : Bool :=
  match fault with
  | .noFault => false
  | .inResolve => true
  | .inStream k =>
    match (load_file fs filename).handler with
    | .file content => k < (readChunks content).length
    | .html _ => k == 0

/-- POSIX-style resolution of the already-split path segments against a
segment stack: empty and `.` segments are skipped, `..` pops the last
stack entry, anything else is pushed.  Used only to give meaning to
"lies under the served root" for claim C3; the server itself performs no
such normalization. -/
def resolveSegs : List PyStr → List PyStr → List PyStr
  | stack, [] => stack
  | stack, s :: rest =>
    if s = [] ∨ s = ".".data then resolveSegs stack rest
    else if s = "..".data then resolveSegs stack.dropLast rest
    else resolveSegs (stack ++ [s]) rest

/-- Whether a relative filesystem path denotes a location under the `www`
served root: after resolving `.` and `..` segments, the first remaining
segment is `www`. -/
def underRoot (p : PyStr) : Bool :=
  match resolveSegs [] (splitCh '/' p) with
  | r :: _ => r == "www".data
  | [] => false

/-- A tiny concrete filesystem for witnesses: one readable, non-executable
two-byte file `www/a.txt`, and one readable executable `www/run.sh`. -/
def fsW : FS := fun p =>
  if p = "www/a.txt".data then some ⟨true, false, "hi".data⟩
  else if p = "www/run.sh".data then some ⟨true, true, "#!".data⟩
  else none

/-- A concrete MIME table for witnesses. -/
def guessW : Mime := fun p =>
  if p = "/a.txt".data then some "text/plain".data else none

/-- A concrete timestamp for witnesses. -/
def nowW : PyStr := "Mon, 01 Jan 2024 00:00:00".data

/-- A concrete well-formed request line for witnesses. -/
def lineW : PyStr := "GET /a.txt HTTP/1.1".data

/-- Whether an event is the log `print`. -/
def isLogEv : Ev → Bool
  | .log _ => true
  | _ => false

/-- `splitWhen` never returns the empty list of pieces. -/
theorem splitWhen_ne_nil (p : Char → Bool) (l : PyStr) : splitWhen p l ≠ [] := by
  cases l with
  | nil => simp [splitWhen]
  | cons c cs =>
    simp only [splitWhen]
    split
    · simp
    · cases h : splitWhen p cs <;> simp

/-- Splitting a string of the form `a ++ sep ++ b` where `a` holds no
separator: the first piece is `a` and the rest is the split of `b`. -/
theorem splitWhen_append_sep (p : Char → Bool) (a b : PyStr) (c : Char)
    (hc : p c = true) (ha : ∀ x ∈ a, p x = false) :
    splitWhen p (a ++ c :: b) = a :: splitWhen p b := by
  induction a with
  | nil => simp [splitWhen, hc]
  | cons x xs ih =>
    have hx : p x = false := ha x (by simp)
    have ih2 : splitWhen p (xs ++ c :: b) = xs :: splitWhen p b :=
      ih (fun y hy => ha y (by simp [hy]))
    simp [splitWhen, hx, ih2]

/-- Splitting a string holding no separator yields that one piece. -/
theorem splitWhen_no_sep (p : Char → Bool) (l : PyStr)
    (h : ∀ x ∈ l, p x = false) : splitWhen p l = [l] := by
  induction l with
  | nil => rfl
  | cons x xs ih =>
    have hx : p x = false := h x (by simp)
    have ih2 : splitWhen p xs = [xs] := ih (fun y hy => h y (by simp [hy]))
    simp [splitWhen, hx, ih2]

/-- Without `..` segments the stack's bottom element survives resolution. -/
theorem resolveSegs_head (segs : List PyStr) (h : "..".data ∉ segs) :
    ∀ (a : PyStr) (st : List PyStr), (resolveSegs (a :: st) segs).head? = some a := by
  induction segs with
  | nil => intro a st; rfl
  | cons s rest ih =>
    intro a st
    have hs : ¬ s = "..".data := fun heq => h (by simp [heq])
    have hrest : "..".data ∉ rest := fun hm => h (by simp [hm])
    by_cases h1 : s = [] ∨ s = ".".data
    · simpa [resolveSegs, h1] using ih hrest a st
    · simpa [resolveSegs, h1, hs] using ih hrest a (st ++ [s])

/-- Reassembling the streamed chunks gives back the file bytes. -/
theorem readChunksAux_flatten (fuel : Nat) :
    ∀ l : PyStr, l.length ≤ fuel → (readChunksAux fuel l).flatten = l := by
  induction fuel with
  | zero =>
    intro l h
    have : l = [] := List.length_eq_zero.mp (Nat.le_zero.mp h)
    subst this; rfl
  | succ fuel ih =>
    intro l h
    cases l with
    | nil => rfl
    | cons c cs =>
      have hlen : (List.drop 1023 cs).length ≤ fuel := by
        simp only [List.length_drop]
        simp only [List.length_cons] at h
        omega
      simp [readChunksAux, ih _ hlen, List.take_append_drop]

/-- Reassembling the streamed chunks gives back the file bytes. -/
theorem readChunks_flatten (l : PyStr) : (readChunks l).flatten = l :=
  readChunksAux_flatten l.length l le_rfl

/-- Every streamed chunk is nonempty and at most the 1024-byte buffer. -/
theorem readChunksAux_mem (fuel : Nat) :
    ∀ l : PyStr, l.length ≤ fuel →
      ∀ c ∈ readChunksAux fuel l, c ≠ [] ∧ c.length ≤ 1024 := by
  induction fuel with
  | zero =>
    intro l h c hc
    have : l = [] := List.length_eq_zero.mp (Nat.le_zero.mp h)
    subst this; simp [readChunksAux] at hc
  | succ fuel ih =>
    intro l h c hc
    cases l with
    | nil => simp [readChunksAux] at hc
    | cons x xs =>
      simp only [readChunksAux, List.mem_cons] at hc
      rcases hc with hc | hc
      · subst hc
        constructor
        · simp [List.take_eq_nil_iff]
        · exact List.length_take_le 1024 (x :: xs)
      · have hlen : ((x :: xs).drop 1024).length ≤ fuel := by
          simp only [List.length_drop]
          simp only [List.length_cons] at h ⊢
          omega
        exact ih _ hlen c hc

/-- Every streamed chunk is nonempty and at most the 1024-byte buffer. -/
theorem readChunks_mem (l : PyStr) :
    ∀ c ∈ readChunks l, c ≠ [] ∧ c.length ≤ 1024 :=
  readChunksAux_mem l.length l le_rfl

/-- `parse_GET` raises exactly on the lines that are not well-formed GET
requests. -/
theorem parse_GET_eq_none (line : PyStr) :
    parse_GET line = none ↔ wellFormedGET line = false := by
  unfold parse_GET wellFormedGET
  cases h : pytokens line with
  | nil => simp
  | cons m rest =>
    cases rest with
    | nil => simp
    | cons f rs => by_cases hm : m = "GET".data <;> simp [hm]

/-- The statuses `load_file` can return. -/
theorem load_file_status_mem (fs : FS) (fn : PyStr) :
    (load_file fs fn).status = 200 ∨ (load_file fs fn).status = 403 ∨
      (load_file fs fn).status = 404 := by
  unfold load_file
  cases fs (resolve_path fn) with
  | none => simp
  | some fi => by_cases h : fi.readable && !fi.executable <;> simp [h]

/-- C1: for every existing, readable, non-executable file F under the
served root, handling a GET for F's path (with no runtime fault) produces
the 200 trace: the header block (status line `HTTP/1.1 200 OK`, with a
`Content-Length` field equal to F's exact byte size) is sent first, then
the body in chunks of at most 1024 bytes whose concatenation is
byte-identical to F's contents, then the file handle is closed, the
connection closed and the request logged. -/
theorem C1_get_success (fs : FS) (guess : Mime) (now line filename : PyStr)
    (fi : FileInfo)
    (hp : parse_GET line = some filename)
    (hf : fs (resolve_path filename) = some fi)
    (hr : fi.readable = true) (hx : fi.executable = false) :
    serve_request fs guess now .noFault line =
      Ev.sendHeader ((generate_headers guess now 200 fi.content.length filename).getD []) ::
        (readChunks fi.content).map Ev.sendChunk ++
        [.closeFile, .closeConn, .log (log_request now filename 200)]
    ∧ (readChunks fi.content).flatten = fi.content
    ∧ (∀ c ∈ readChunks fi.content, c ≠ [] ∧ c.length ≤ 1024)
    ∧ status_line 200 = some "HTTP/1.1 200 OK".data
    ∧ ("Content-Length".data, (toString fi.content.length).data) ∈
        header_fields guess now 200 fi.content.length filename := by
  have hload : load_file fs filename = ⟨.file fi.content, fi.content.length, 200⟩ := by
    simp [load_file, hf, hr, hx]
  refine ⟨?_, readChunks_flatten _, readChunks_mem _, rfl, by simp [header_fields]⟩
  simp [serve_request, hp, hload]

/-- C1 witness at the concrete file `www/a.txt` with contents `hi`. -/
theorem C1_witness :
    serve_request fsW guessW nowW .noFault lineW =
      Ev.sendHeader ((generate_headers guessW nowW 200 ("hi".data).length "/a.txt".data).getD []) ::
        (readChunks "hi".data).map Ev.sendChunk ++
        [.closeFile, .closeConn, .log (log_request nowW "/a.txt".data 200)]
    ∧ (readChunks "hi".data).flatten = "hi".data
    ∧ (∀ c ∈ readChunks "hi".data, c ≠ [] ∧ c.length ≤ 1024)
    ∧ status_line 200 = some "HTTP/1.1 200 OK".data
    ∧ ("Content-Length".data, (toString ("hi".data).length).data) ∈
        header_fields guessW nowW 200 ("hi".data).length "/a.txt".data :=
  C1_get_success fsW guessW nowW lineW "/a.txt".data ⟨true, false, "hi".data⟩
    (by decide) (by decide) rfl rfl

/-- C2: the resolution rules of `load_file`, in order: a missing target
gives the 404 outcome with the error page as body; an existing, readable,
non-executable target gives the 200 outcome carrying the open handle and
the exact size, and the 200 header block derives its `Content-Type` from
the filename via the MIME lookup; any other existing target (unreadable,
or executable — even world-readable executables) gives the 403 outcome. -/
theorem C2_load_file_classification (fs : FS) (guess : Mime) (now filename : PyStr) :
    (fs (resolve_path filename) = none →
      load_file fs filename =
        ⟨.html ((generate_error_HTML 404).getD []),
          ((generate_error_HTML 404).getD []).length, 404⟩)
    ∧ (∀ fi : FileInfo, fs (resolve_path filename) = some fi →
        fi.readable = true → fi.executable = false →
        load_file fs filename = ⟨.file fi.content, fi.content.length, 200⟩
        ∧ ("Content-Type".data, MIME_types guess filename) ∈
            header_fields guess now 200 fi.content.length filename)
    ∧ (∀ fi : FileInfo, fs (resolve_path filename) = some fi →
        fi.readable = false ∨ fi.executable = true →
        load_file fs filename =
          ⟨.html ((generate_error_HTML 403).getD []),
            ((generate_error_HTML 403).getD []).length, 403⟩) := by
  refine ⟨fun h => by simp [load_file, h], fun fi h hr hx => ?_, fun fi h hrx => ?_⟩
  · exact ⟨by simp [load_file, h, hr, hx], by simp [header_fields]⟩
  · rcases hrx with hr | hx
    · simp [load_file, h, hr]
    · simp [load_file, h, hx]

/-- C8: `load_file` treats the bare root path `/` exactly as the default
document path `/index.html`: the returned outcome (handler, size, status)
is equal for every filesystem. -/
theorem C8_root_is_default_document (fs : FS) :
    load_file fs "/".data = load_file fs "/index.html".data := by
  have h : resolve_path "/".data = resolve_path "/index.html".data := by decide
  simp [load_file, h]

/-- C3 counterexample: the decoded request path `/../secret` is produced
by the parser from a well-formed GET line, and the path the resolver
builds for it — the plain concatenation `www/../secret` — resolves to a
location outside the served root (`underRoot` is false), refuting the
claim that every resolved path lies under the served root. -/
theorem C3_counterexample :
    parse_GET "GET /../secret HTTP/1.1".data = some "/../secret".data
    ∧ resolve_path "/../secret".data = "www/../secret".data
    ∧ underRoot (resolve_path "/../secret".data) = false := by decide

/-- C3 amended: the resolver only concatenates the served-root directory
with the decoded path; the result lies under the served root whenever the
decoded path starts with `/` and has no parent-directory (`..`) segment,
but a path with `..` segments can escape the root. -/
theorem C3_amended_under_root (filename rest : PyStr)
    (hslash : filename = '/' :: rest)
    (hdots : "..".data ∉ splitCh '/' filename) :
    underRoot (resolve_path filename) = true := by
  subst hslash
  by_cases hroot : rest = []
  · subst hroot; decide
  · have hfull : resolve_path ('/' :: rest) = 'w' :: 'w' :: 'w' :: '/' :: rest := by
      have hne : ¬ ('/' :: rest = "/".data) := by
        intro h
        exact hroot (by simpa using congrArg List.tail h)
      simp [resolve_path, hne]
    have hsplit : splitCh '/' ('w' :: 'w' :: 'w' :: '/' :: rest) =
        "www".data :: splitCh '/' rest := by
      simpa [splitCh] using
        splitWhen_append_sep (fun c => c == '/') "www".data rest '/' (by decide)
          (by decide)
    have hdots2 : "..".data ∉ splitCh '/' rest := by
      have hcons : splitCh '/' ('/' :: rest) = [] :: splitCh '/' rest := by
        simpa [splitCh] using
          splitWhen_append_sep (fun c => c == '/') [] rest '/' (by decide)
            (by simp)
      rw [hcons] at hdots
      simp at hdots
      exact hdots
    have hstep : resolveSegs [] ("www".data :: splitCh '/' rest) =
        resolveSegs ["www".data] (splitCh '/' rest) := by
      simp [resolveSegs]
    have hhead := resolveSegs_head (splitCh '/' rest) hdots2 "www".data []
    rcases hres : resolveSegs ["www".data] (splitCh '/' rest) with _ | ⟨r, rs⟩
    · rw [hres] at hhead; simp at hhead
    · rw [hres] at hhead
      simp only [List.head?_cons, Option.some_inj] at hhead
      simp [underRoot, hfull, hsplit, hstep, hres, hhead]

/-- C3 witness: a benign path with no parent-directory segments stays
under the root. -/
theorem C3_witness : underRoot (resolve_path "/a.txt".data) = true :=
  C3_amended_under_root "/a.txt".data "a.txt".data rfl (by decide)

/-- C4: on any first line that is not a well-formed GET request (first
token not `GET`, missing path token, empty or unparseable line), the
handler — whatever the filesystem, MIME table, clock or fault oracle —
performs exactly the 405 trace: one send of the 405 header block plus
error body, one close of the connection, and the non-GET log line; no
crash occurs and (by construction of the model) no byte beyond the first
line is ever read. -/
theorem C4_non_get_405 (fs : FS) (guess : Mime) (now : PyStr) (fault : Fault)
    (line : PyStr) (h : wellFormedGET line = false) :
    serve_request fs guess now fault line =
      [.sendResponse (response405 guess now), .closeConn, .log (log_non_GET now)] := by
  have hp : parse_GET line = none := (parse_GET_eq_none line).mpr h
  simp [serve_request, hp]

/-- C4 witness at a concrete non-GET request line. -/
theorem C4_witness :
    serve_request fsW guessW nowW .noFault "POST /a.txt HTTP/1.1".data =
      [.sendResponse (response405 guessW nowW), .closeConn,
       .log (log_non_GET nowW)] :=
  C4_non_get_405 fsW guessW nowW .noFault "POST /a.txt HTTP/1.1".data (by decide)

/-- C7: the parser truncates the raw path at the first `?` and then
percent-decodes the remainder (first conjunct, the processing applied to
the raw path token of any well-formed line); hence a query-string suffix
appended to a `?`-free path resolves identically to the path without it
(second conjunct), and a percent-encoded `%20` resolves to a literal
space in the filename (third conjunct). -/
theorem C7_query_stripped_then_decoded (line f q : PyStr) :
    (∀ rest, pytokens line = "GET".data :: f :: rest →
      parse_GET line = some (unquote ((splitCh '?' f).headD f)))
    ∧ ((∀ c ∈ f, c ≠ '?') → process_rawpath (f ++ '?' :: q) = process_rawpath f)
    ∧ parse_GET "GET /my%20file.txt HTTP/1.1".data = some "/my file.txt".data := by
  refine ⟨fun rest h => by simp [parse_GET, h, process_rawpath], fun hq => ?_, by decide⟩
  have hfree : ∀ c ∈ f, (fun c => c == '?') c = false := by
    intro c hc
    simpa using hq c hc
  have h1 : splitCh '?' (f ++ '?' :: q) = f :: splitCh '?' q := by
    simpa [splitCh] using
      splitWhen_append_sep (fun c => c == '?') f q '?' (by decide) hfree
  have h2 : splitCh '?' f = [f] := by
    simpa [splitCh] using splitWhen_no_sep (fun c => c == '?') f hfree
  simp [process_rawpath, h1, h2]

/-- C10: the response formatter is defined exactly on the five enumerated
status codes — `generate_headers` yields a header block precisely for
codes 200/403/404/405/500 and `generate_error_HTML` yields a body
precisely for 403/404/405/500 (any other code takes the undefined
`NameError` branch, modelled as `none`); the header fields always include
`Date` and `Server`; the four error bodies are pairwise distinct; and the
codes produced by `load_file` (plus the literal 405/500 of the handler)
make the undefined branch unreachable from valid outcomes. -/
theorem C10_formatter_domain (guess : Mime) (now : PyStr) (file_size : Nat)
    (filename : PyStr) (code : Nat) :
    ((generate_headers guess now code file_size filename).isSome ↔
      code = 200 ∨ code = 403 ∨ code = 404 ∨ code = 405 ∨ code = 500)
    ∧ ((generate_error_HTML code).isSome ↔
      code = 403 ∨ code = 404 ∨ code = 405 ∨ code = 500)
    ∧ ("Date".data, now) ∈ header_fields guess now code file_size filename
    ∧ ("Server".data, server_id) ∈ header_fields guess now code file_size filename
    ∧ generate_error_HTML 403 ≠ generate_error_HTML 404
    ∧ generate_error_HTML 403 ≠ generate_error_HTML 405
    ∧ generate_error_HTML 403 ≠ generate_error_HTML 500
    ∧ generate_error_HTML 404 ≠ generate_error_HTML 405
    ∧ generate_error_HTML 404 ≠ generate_error_HTML 500
    ∧ generate_error_HTML 405 ≠ generate_error_HTML 500
    ∧ (∀ (fs : FS) (fn : PyStr), (load_file fs fn).status = 200 ∨
        (load_file fs fn).status = 403 ∨ (load_file fs fn).status = 404) := by
  refine ⟨?_, ?_, ?_, ?_, by decide, by decide, by decide, by decide, by decide,
    by decide, load_file_status_mem⟩
  · unfold generate_headers status_line
    split_ifs <;> simp_all
  · unfold generate_error_HTML
    split_ifs <;> simp_all
  · simp [header_fields]
  · simp [header_fields]

set_option maxRecDepth 8192 in
/-- C6 counterexample: when a send fault occurs while the body of a 200
response is being streamed (here on the very first chunk, after the header
block was already sent), the bare `except` of `serve_request` sends the
full 500 response — which begins with another header block — on the same
connection: the trace holds two header-transmitting sends, refuting
"headers are never sent twice on the same connection". -/
theorem C6_counterexample :
    serve_request fsW guessW nowW (.inStream 0) lineW =
      [.sendHeader ((generate_headers guessW nowW 200 2 "/a.txt".data).getD []),
       .sendResponse (response500 guessW nowW), .closeConn,
       .log (log_request nowW "/a.txt".data 200)]
    ∧ (serve_request fsW guessW nowW (.inStream 0) lineW).countP isHeaderSend = 2 := by
  decide

set_option maxRecDepth 8192 in
/-- C9 failing input, evaluated: a GET for the existing file `www/a.txt`
during which `load_file` (or `generate_headers`) raises — e.g. the
`open` call failing after the access checks.  The `except` branch sends
the 500 response and closes the socket, but the closing `print` then
reads the local `status`, which the failed tuple assignment never bound,
raises `NameError` and kills the handler thread: the trace holds no log
event at all, contradicting "exactly one log line is emitted ...
including on the 500 internal-error path". -/
theorem C9_fault_path_emits_no_log :
    serve_request fsW guessW nowW .inResolve lineW =
      [.sendResponse (response500 guessW nowW), .closeConn, .crash]
    ∧ (serve_request fsW guessW nowW .inResolve lineW).countP isLogEv = 0 := by
  decide

/-- The socket payload of a chunk send is the chunk itself. -/
theorem map_payload_sendChunk (l : List PyStr) :
    l.map (Ev.payload ∘ Ev.sendChunk) = l := by
  induction l with
  | nil => rfl
  | cons a t ih => simp [ih, Ev.payload, Function.comp]

/-- Chunk sends are not connection closes. -/
theorem countP_closeConn_map_sendChunk (l : List PyStr) :
    (l.map Ev.sendChunk).countP (fun e => decide (e = Ev.closeConn)) = 0 := by
  induction l with
  | nil => rfl
  | cons a t ih => simp [List.countP_cons, ih]

/-- Chunk sends transmit no header block. -/
theorem countP_isHeaderSend_map_sendChunk (l : List PyStr) :
    (l.map Ev.sendChunk).countP isHeaderSend = 0 := by
  induction l with
  | nil => rfl
  | cons a t ih => simp [List.countP_cons, isHeaderSend, ih]

/-- C5: whenever an unhandled exception actually occurs during
resolution, header generation or streaming of a parsed GET request, the
handler sends the complete, well-formed 500 response (status line,
headers and error body, as one `sock.send`) and closes the connection
exactly once; everything the client received before the fault (nothing at
all when the fault struck before the header send) precedes that complete
500 response, faults after the header send having merely truncated the
original body.  The fault never leaves the handler's trace: it is
contained in this connection. -/
theorem C5_internal_fault_500 (fs : FS) (guess : Mime) (now line filename : PyStr)
    (fault : Fault)
    (hp : parse_GET line = some filename)
    (hex : exceptionOccurs fs filename fault = true) :
    ∃ pre, sentData (serve_request fs guess now fault line) =
        pre ++ response500 guess now
      ∧ (fault = .inResolve → pre = [])
      ∧ (serve_request fs guess now fault line).countP
          (fun e => decide (e = Ev.closeConn)) = 1 := by
  cases fault with
  | noFault => simp [exceptionOccurs] at hex
  | inResolve =>
    refine ⟨[], ?_, fun _ => rfl, ?_⟩
    · simp [serve_request, hp, sentData, Ev.payload]
    · simp [serve_request, hp, List.countP_cons]
  | inStream k =>
    rcases hload : load_file fs filename with ⟨hdl, size, status⟩
    cases hdl with
    | file content =>
      have hk : k < (readChunks content).length := by
        simpa [exceptionOccurs, hload] using hex
      refine ⟨(generate_headers guess now status size filename).getD [] ++
          ((readChunks content).take k).flatten, ?_, by simp, ?_⟩
      · simp [serve_request, hp, hload, hk, sentData, Ev.payload, List.map_map,
          List.append_assoc, ← List.map_take, map_payload_sendChunk]
      · simp [serve_request, hp, hload, hk, List.countP_cons, List.countP_append,
          countP_closeConn_map_sendChunk, ← List.map_take]
    | html body =>
      have hk : k = 0 := by
        simpa [exceptionOccurs, hload] using hex
      subst hk
      refine ⟨(generate_headers guess now status size filename).getD [], ?_, by simp, ?_⟩
      · simp [serve_request, hp, hload, sentData, Ev.payload]
      · simp [serve_request, hp, hload, List.countP_cons]

/-- C5 witness: a concrete resolution-time fault on a parsed GET. -/
theorem C5_witness :
    ∃ pre, sentData (serve_request fsW guessW nowW .inResolve lineW) =
        pre ++ response500 guessW nowW
      ∧ (Fault.inResolve = Fault.inResolve → pre = [])
      ∧ (serve_request fsW guessW nowW .inResolve lineW).countP
          (fun e => decide (e = Ev.closeConn)) = 1 :=
  C5_internal_fault_500 fsW guessW nowW lineW "/a.txt".data .inResolve
    (by decide) (by decide)

/-- Composed form of the previous fact, as produced by `List.countP_map`. -/
theorem countP_comp_isHeaderSend_sendChunk (l : List PyStr) :
    l.countP (isHeaderSend ∘ Ev.sendChunk) = 0 := by
  induction l with
  | nil => rfl
  | cons a t ih => simp [List.countP_cons, isHeaderSend, ih, Function.comp]

/-- C6 amended: on every accepted connection and every exit path (success,
parse failure, resolution failure, internal error) exactly one outcome is
acted on and the connection is closed exactly once; the header block is
sent exactly once provided no internal fault occurs after the header was
sent, and a fault during body streaming causes exactly one additional
header-carrying send (the 500 response) — so at most two header
transmissions ever occur on one connection. -/
theorem C6_amended_one_close (fs : FS) (guess : Mime) (now line : PyStr)
    (fault : Fault) :
    (serve_request fs guess now fault line).countP
        (fun e => decide (e = Ev.closeConn)) = 1
    ∧ ((∀ k, fault ≠ .inStream k) →
        (serve_request fs guess now fault line).countP isHeaderSend = 1)
    ∧ (serve_request fs guess now fault line).countP isHeaderSend ≤ 2 := by
  cases hp : parse_GET line with
  | none =>
    refine ⟨?_, fun _ => ?_, ?_⟩ <;>
      simp [serve_request, hp, List.countP_cons, isHeaderSend]
  | some filename =>
    rcases hload : load_file fs filename with ⟨hdl, size, status⟩
    cases fault with
    | noFault =>
      cases hdl with
      | file content =>
        refine ⟨?_, fun _ => ?_, ?_⟩ <;>
          simp [serve_request, hp, hload, List.countP_cons, List.countP_append,
            countP_closeConn_map_sendChunk, countP_isHeaderSend_map_sendChunk,
            countP_comp_isHeaderSend_sendChunk, isHeaderSend]
      | html body =>
        refine ⟨?_, fun _ => ?_, ?_⟩ <;>
          simp [serve_request, hp, hload, List.countP_cons, isHeaderSend]
    | inResolve =>
      refine ⟨?_, fun _ => ?_, ?_⟩ <;>
        simp [serve_request, hp, List.countP_cons, isHeaderSend]
    | inStream k =>
      refine ⟨?_, fun h => absurd rfl (h k), ?_⟩
      · cases hdl with
        | file content =>
          by_cases hk : k < (readChunks content).length <;>
            simp [serve_request, hp, hload, hk, List.countP_cons, List.countP_append,
              countP_closeConn_map_sendChunk, ← List.map_take]
        | html body =>
          cases k with
          | zero => simp [serve_request, hp, hload, List.countP_cons]
          | succ k => simp [serve_request, hp, hload, List.countP_cons]
      · cases hdl with
        | file content =>
          by_cases hk : k < (readChunks content).length <;>
            simp [serve_request, hp, hload, hk, List.countP_cons, List.countP_append,
              countP_isHeaderSend_map_sendChunk, countP_comp_isHeaderSend_sendChunk,
              isHeaderSend, ← List.map_take]
        | html body =>
          cases k with
          | zero => simp [serve_request, hp, hload, List.countP_cons, isHeaderSend]
          | succ k => simp [serve_request, hp, hload, List.countP_cons, isHeaderSend]
